import Mathlib

/-!
Verification of the `player-web` icon player against its specification.

The development shallowly embeds the relevant TypeScript sources:
* the path-accessor utilities `has` / `get` (`utils.ts`),
* the `Player` constructor's marker parsing, state selection and
  legacy-document property application (`player.ts`),
* the runtime `Player` operations (`init`, `seek`, the `state` and
  `frame` setters) over a model of the external renderer instance.

JavaScript numbers are modelled as `ℚ` where division occurs and as `Int`
for frame/time arithmetic; fallible code returns `Except String`.
-/

namespace PlayerWeb

/-! ## JavaScript-style string splitting

`String.prototype.split(sep)` with a single-character separator:
`"".split(c) = [""]`, `"a:".split(c) = ["a", ""]`.
-/

/-- Split a list of characters at every occurrence of `sep`.
The result is always nonempty, mirroring JavaScript `split`. -/
def splitOnChar (sep : Char) : List Char → List (List Char)
  | [] => [[]]
  | c :: rest =>
    if c = sep then [] :: splitOnChar sep rest
    else
      match splitOnChar sep rest with
      | [] => [[c]]
      | g :: gs => (c :: g) :: gs

/-- JavaScript `s.split(sep)` for a one-character separator. -/
def jsSplit (s : String) (sep : Char) : List String :=
  (splitOnChar sep s.data).map String.mk

/-! ## Path accessor (`utils.ts`: `isObjectLike`, `has`, `get`)

JavaScript values reachable by the accessor are modelled by `JValue`;
objects (and arrays, whose string-keyed indexing is analogous) are
association lists of string keys.
-/

/-- Model of a JavaScript value as traversed by the path accessor. -/
inductive JValue where
  | null
  | undef
  | boolean (b : Bool)
  | num (q : ℚ)
  | str (s : String)
  | obj (fields : List (String × JValue))

/-- `isObjectLike(value)`: `value !== null && typeof value === "object"`. -/
def isObjectLike : JValue → Bool
  | .obj _ => true
  | _ => false

/-- JavaScript `key in current` / `current[key]` combined: the first field
with the given key, if present. -/
def lookupField : List (String × JValue) → String → Option JValue
  | [], _ => none
  | (k2, v) :: rest, k => if k2 = k then some v else lookupField rest k

/-- The traversal loop of `has` over an already-split path: bail out with
`false` when the current node is not object-like or the key is absent. -/
def hasKeys : JValue → List String → Bool
  | _, [] => true
  | v, k :: rest =>
    match v with
    | .obj fields =>
      match lookupField fields k with
      | some v2 => hasKeys v2 rest
      | none => false
    | _ => false

/-- The traversal loop of `get` over an already-split path: bail out with
the default when the current node is not object-like or the key is absent;
at the end, `current === undefined ? defaultValue : current`. -/
def getKeys : JValue → List String → JValue → JValue
  | v, [], dflt =>
    match v with
    | .undef => dflt
    | _ => v
  | v, k :: rest, dflt =>
    match v with
    | .obj fields =>
      match lookupField fields k with
      | some v2 => getKeys v2 rest dflt
      | none => dflt
    | _ => dflt

/-- A path is either a dot-delimited string or an already-split key list. -/
def pathKeys : String ⊕ List String → List String
  | .inl s => jsSplit s '.'
  | .inr ks => ks

/-- `has(object, path)` from `utils.ts`. -/
def has (object : JValue) (path : String ⊕ List String) : Bool :=
  hasKeys object (pathKeys path)

/-- `get(object, path, defaultValue)` from `utils.ts`. -/
def get (object : JValue) (path : String ⊕ List String) (defaultValue : JValue) : JValue :=
  getKeys object (pathKeys path) defaultValue

/-- Traversal reaches a bad node: some step of the walk hits a value that is
not an indexable structure, or a key that is absent.  This is the condition
named by the specification for the safe-miss behaviour. -/
def traversalMiss : JValue → List String → Bool
  | _, [] => false
  | v, k :: rest =>
    match v with
    | .obj fields =>
      match lookupField fields k with
      | some v2 => traversalMiss v2 rest
      | none => true
    | _ => true

lemma getKeys_hasKeys_of_miss :
    ∀ (ks : List String) (o d : JValue), traversalMiss o ks = true →
      getKeys o ks d = d ∧ hasKeys o ks = false := by
  intro ks
  induction ks with
  | nil => intro o d h; simp [traversalMiss] at h
  | cons k rest ih =>
    intro o d h
    cases o with
    | obj fields =>
      cases hf : lookupField fields k with
      | some v2 =>
        rw [traversalMiss, hf] at h
        have := ih v2 d h
        constructor
        · rw [getKeys, hf]; exact this.1
        · rw [hasKeys, hf]; exact this.2
      | none =>
        constructor
        · rw [getKeys, hf]
        · rw [hasKeys, hf]
    | null => exact ⟨rfl, rfl⟩
    | undef => exact ⟨rfl, rfl⟩
    | boolean b => exact ⟨rfl, rfl⟩
    | num q => exact ⟨rfl, rfl⟩
    | str s => exact ⟨rfl, rfl⟩

/-- C8: for every object and every dot-delimited or pre-split path, as soon
as the traversal reaches an intermediate node that is not an indexable
structure or a key that is absent, `get` returns the supplied default value
and `has` returns `false`.  Both functions are total Lean functions, so
neither can raise on a missing path. -/
theorem c8_path_accessor_safe_miss (o : JValue) (p : String ⊕ List String) (d : JValue)
    (h : traversalMiss o (pathKeys p) = true) :
    get o p d = d ∧ has o p = false :=
  getKeys_hasKeys_of_miss (pathKeys p) o d h

/-- Witness for C8: on the object `{a: {b: 1}}` and the missing pre-split
path `["a", "x"]`, `get` returns the default `7` and `has` returns false. -/
theorem c8_path_accessor_safe_miss_witness :
    traversalMiss (.obj [("a", .obj [("b", .num 1)])]) (pathKeys (.inr ["a", "x"])) = true ∧
      get (.obj [("a", .obj [("b", .num 1)])]) (.inr ["a", "x"]) (.num 7) = .num 7 ∧
      has (.obj [("a", .obj [("b", .num 1)])]) (.inr ["a", "x"]) = false :=
  ⟨rfl, c8_path_accessor_safe_miss _ _ _ rfl⟩

/-! ## Marker parsing and the `Player` constructor (`player.ts`)

The constructor parses the document's marker list into the state catalog
`_availableStates`, selecting `_state` on the way, then branches on
modern (marker-bearing) versus legacy (markerless) documents.
-/

/-- Supported state flags for icons.  Currently only `default` is
supported (`player.ts` line 30). -/
def SUPPORTED_STATE_FLAGS : List String := ["default"]

/-- A Lottie marker: name `cm`, start time `tm`, duration `dr`. -/
structure Marker where
  cm : String
  tm : Int
  dr : Int
deriving Repr, DecidableEq

/-- `IconState` from `interfaces.ts`: one entry of the state catalog. -/
structure IconState where
  name : String
  time : Int
  duration : Int
  params : List String
  default : Bool
deriving Repr, DecidableEq

/-- The flag-consuming loop (`player.ts` lines 149-159): while the leading
token is a supported flag, record its effect (`default` sets the default
flag; any other supported-but-unhandled flag throws) and shift it off. -/
def consumeFlags : List String → Bool → Except String (List String × Bool)
  | parts@(p :: rest), dflt =>
    if SUPPORTED_STATE_FLAGS.contains p then
      if p = "default" then consumeFlags rest true
      else .error ("Unsupported state flag: " ++ p)
    else .ok (parts, dflt)
  | [], dflt => .ok ([], dflt)

/-- Parse one marker into an `IconState` (`player.ts` lines 137-163): split
`cm` on `:`, consume leading flags, then the next token is the state name
and the remaining tokens are the parameters.  (`jsSplit` never returns an
empty list, so `headD ""` is only a guard for the all-flags marker, where
JavaScript would read `undefined`.) -/
def parseMarker (m : Marker) : Except String IconState :=
  match consumeFlags (jsSplit m.cm ':') false with
  | .error e => .error e
  | .ok (parts, dflt) =>
    .ok { name := parts.headD "", time := m.tm, duration := m.dr,
          params := parts.tail, default := dflt }

/-- The in-map selection rule (`player.ts` lines 166-170) as a Boolean on a
marker: the parsed state's name equals the requested initial state, or the
state is default-flagged and no initial state was requested. -/
def selCond (req : Option String) (m : Marker) : Bool :=
  match parseMarker m with
  | .ok st => req == some st.name || (st.default && req == none)
  | .error _ => false

/-- The selection update applied per marker (`player.ts` lines 166-170):
select the parsed state when its name equals the requested initial state,
or when it is default-flagged and no initial state was requested;
otherwise keep the previous selection. -/
def selUpdate (req : Option String) (st : IconState) (sel : Option IconState) :
    Option IconState :=
  if req == some st.name then some st
  else if st.default && req == none then some st
  else sel

/-- The `map` over the marker list (`player.ts` lines 137-173): parse each
marker in order, updating the selected state `sel` whenever the selection
rule fires (later matches overwrite earlier ones), and collect the parsed
states before the duration filter. -/
def buildStates (req : Option String) : List Marker → Option IconState →
    Except String (List IconState × Option IconState)
  | [], sel => .ok ([], sel)
  | m :: rest, sel =>
    match parseMarker m with
    | .error e => .error e
    | .ok st =>
      match buildStates req rest (selUpdate req st sel) with
      | .error e => .error e
      | .ok (sts, selF) => .ok (st :: sts, selF)

/-- A supplied stroke value at runtime: a number or a string. -/
inductive StrokeValue where
  | num (n : ℚ)
  | str (s : String)
deriving Repr, DecidableEq

/-- JavaScript truthiness of a stroke value (`0` and `""` are falsy). -/
def StrokeValue.truthy : StrokeValue → Bool
  | .num n => !(n == 0)
  | .str s => !(s == "")

/-- `[1, 2, 3, 'light', 'regular', 'bold'].includes(stroke)`
(`player.ts` line 178). -/
def validStroke : StrokeValue → Bool
  | .num n => n == 1 || n == 2 || n == 3
  | .str s => s == "light" || s == "regular" || s == "bold"

/-- JavaScript numeric coercion of a stroke value, as used by
`(stroke as number) * ratio` in the legacy branch; the named presets are
non-numeric strings, coercing to NaN (modelled as `none`).  Numeric-string
coercion is not modelled: no value of the stroke vocabulary needs it. -/
def strokeNum : StrokeValue → Option ℚ
  | .num n => some n
  | .str _ => none

/-- JavaScript truthiness of an optional string (`undefined`/`null`/`""`
are falsy). -/
def truthyStr : Option String → Bool
  | none => false
  | some s => !(s == "")

/-- Modelled from the spec: `extractLottieProperties` (file `lottie.ts`) is
not among the provided sources.  Per the spec it yields a catalog of
`{name, path, type, value}` entries with the value snapshotted at
extraction time; the catalog is taken as an abstract input to the
constructor.  Only the scalar-valued entries used by the legacy branch
(`stroke`, `scale`, the `state-*` toggles) are modelled; the pair-valued
`axis` entry (`player.ts` lines 231-239) is not, as no claim concerns it. -/
structure LottieProp where
  name : String
  path : String
  value : ℚ
deriving Repr, DecidableEq

/-- Modelled from the spec: `updateLottieProperties` / `set` write a value
at each matching property's path (spec 4.3); the legacy branch's writes are
recorded as `(path, value)` pairs, `none` standing for NaN. -/
def legacyStateWrites (props : List LottieProp) (req : String) : List (String × Option ℚ) :=
  (props.filter (fun c => c.name.startsWith "state-")).map (fun c => (c.path, some 0)) ++
    (props.filter (fun c => c.name == "state-" ++ req.toLower)).map (fun c => (c.path, some 1))

/-- The legacy stroke application (`player.ts` lines 212-219): take the
first extracted property named `stroke`, scale the supplied stroke by
`property.value / 50` and write it at the property's path. -/
def legacyStrokeWrites (props : List LottieProp) (stroke : StrokeValue) :
    List (String × Option ℚ) :=
  match (props.filter (fun c => c.name == "stroke")).head? with
  | some property =>
    [(property.path, (strokeNum stroke).map (fun n => n * (property.value / 50)))]
  | none => []

/-- The legacy scale application (`player.ts` lines 222-229). -/
def legacyScaleWrites (props : List LottieProp) (scale : ℚ) : List (String × Option ℚ) :=
  match (props.filter (fun c => c.name == "scale")).head? with
  | some property => [(property.path, some (scale * (property.value / 50)))]
  | none => []

/-- Initial icon properties supplied to the constructor (`IconProperties`
with the legacy `scale`; colors and axis are not modelled, no claim
concerns them). -/
structure InitProps where
  state : Option String
  stroke : Option StrokeValue
  scale : Option ℚ
deriving Repr, DecidableEq

/-- Model of the external renderer instance (`@lordicon/internal`).
Modelled from the spec: the renderer is an external collaborator (spec 1,
6); its instance state and transport primitives follow the contract of
spec section 6.  `currentFrame` is segment-relative, `firstFrame` /
`totalFrames` describe the current segment, `fullFirst` / `fullTotal` the
overall loaded range restored by `resetSegments`.  `trace` records the
transport calls the façade makes, most recent first. -/
structure Renderer where
  isPaused : Bool
  currentFrame : Int
  firstFrame : Int
  totalFrames : Int
  fullFirst : Int
  fullTotal : Int
  playDirection : Int
  trace : List String
deriving Repr, DecidableEq

def Renderer.setSegment (r : Renderer) (a b : Int) : Renderer :=
  { r with firstFrame := a, totalFrames := b - a, trace := "setSegment" :: r.trace }

def Renderer.resetSegments (r : Renderer) : Renderer :=
  { r with firstFrame := r.fullFirst, totalFrames := r.fullTotal,
           trace := "resetSegments" :: r.trace }

def Renderer.goToAndStop (r : Renderer) (v : Int) : Renderer :=
  { r with currentFrame := v, isPaused := true, trace := "goToAndStop" :: r.trace }

def Renderer.play (r : Renderer) : Renderer :=
  { r with isPaused := false, trace := "play" :: r.trace }

def Renderer.pause (r : Renderer) : Renderer :=
  { r with isPaused := true, trace := "pause" :: r.trace }

def Renderer.setDirection (r : Renderer) (d : Int) : Renderer :=
  { r with playDirection := d, trace := "setDirection" :: r.trace }

/-- `getDuration(true)`: the duration of the current segment in frames. -/
def Renderer.getDurationInFrames (r : Renderer) : Int := r.totalFrames

/-- The `Player` façade.  `state?` is `_state`, `stroke?` the (possibly
deleted) initial stroke, `legacyWrites` the writes performed by the legacy
branch of the constructor, `docIp` / `docOp` the document's own frame
range, and `lottie?` is `_lottieInstance`. -/
structure Player where
  availableStates : List IconState
  state? : Option IconState
  stroke? : Option StrokeValue
  legacyWrites : List (String × Option ℚ)
  direction : Int
  docIp : Int
  docOp : Int
  lottie? : Option Renderer
deriving Repr, DecidableEq

/-- The writes performed by the legacy branch of the constructor
(`player.ts` lines 189-240), in program order: the `state-*` toggles, the
stroke scaling, the scale scaling.  Each block is guarded by the presence
of the extracted catalog and the JavaScript truthiness of the
corresponding initial property. -/
def legacyWritesAll (props : InitProps) (extracted : Option (List LottieProp)) :
    List (String × Option ℚ) :=
  (match extracted, props.state with
   | some ps, some s => if s = "" then [] else legacyStateWrites ps s
   | _, _ => []) ++
  (match extracted, props.stroke with
   | some ps, some v => if v.truthy then legacyStrokeWrites ps v else []
   | _, _ => []) ++
  (match extracted, props.scale with
   | some ps, some q => if q == 0 then [] else legacyScaleWrites ps q
   | _, _ => [])

/-- `player.ts` lines 177-180: remove unsupported stroke values (modern
branch only). -/
def modernStroke (stroke : Option StrokeValue) : Option StrokeValue :=
  match stroke with
  | some v => if v.truthy && !(validStroke v) then none else some v
  | none => none

/-- `player.ts` lines 182-185: fall back to the default-flagged state when
an initial state was requested but did not resolve (modern branch only). -/
def modernSel (availableStates : List IconState) (req : Option String)
    (sel : Option IconState) : Option IconState :=
  if truthyStr req && sel.isNone then
    (availableStates.filter (fun c => c.default)).head?
  else sel

/-- The `Player` record produced by the legacy branch. -/
def mkPlayerLegacy (availableStates : List IconState) (sel : Option IconState)
    (props : InitProps) (extracted : Option (List LottieProp))
    (docIp docOp : Int) : Player :=
  { availableStates := availableStates, state? := sel, stroke? := props.stroke,
    legacyWrites := legacyWritesAll props extracted,
    direction := 1, docIp := docIp, docOp := docOp, lottie? := none }

/-- The `Player` record produced by the modern (marker-bearing) branch. -/
def mkPlayerModern (availableStates : List IconState) (sel : Option IconState)
    (props : InitProps) (docIp docOp : Int) : Player :=
  { availableStates := availableStates,
    state? := modernSel availableStates props.state sel,
    stroke? := modernStroke props.stroke, legacyWrites := [],
    direction := 1, docIp := docIp, docOp := docOp, lottie? := none }

/-- The `Player` constructor (`player.ts` lines 126-246) up to but not
including `autoInit` (modelled separately by `Player.init`): parse the
markers into the catalog, filter out non-positive durations, then either
validate the initial stroke and apply the default-state fallback (modern
branch) or perform the one-time legacy property application (legacy
branch).  `extracted` is the abstract result of `extractLottieProperties`
on the cloned document. -/
def mkPlayer (markers : List Marker) (props : InitProps)
    (extracted : Option (List LottieProp)) (docIp docOp : Int) : Except String Player :=
  match buildStates props.state markers none with
  | .error e => .error e
  | .ok (allStates, sel) =>
    if (allStates.filter (fun c => c.duration > 0)).isEmpty then
      .ok (mkPlayerLegacy (allStates.filter (fun c => c.duration > 0)) sel
        props extracted docIp docOp)
    else
      .ok (mkPlayerModern (allStates.filter (fun c => c.duration > 0)) sel
        props docIp docOp)

/-- The `state` getter (`player.ts` lines 645-651): the selected state's
name, `""` when no state is selected. -/
def Player.state (p : Player) : String :=
  match p.state? with
  | some st => st.name
  | none => ""

lemma parseMarker_duration {m : Marker} {st : IconState}
    (h : parseMarker m = .ok st) : st.duration = m.dr := by
  unfold parseMarker at h
  split at h
  · cases h
  · cases h; rfl

lemma buildStates_mem {req : Option String} :
    ∀ {ms : List Marker} {sel0 : Option IconState} {sts : List IconState}
      {sel : Option IconState},
      buildStates req ms sel0 = .ok (sts, sel) →
      ∀ st ∈ sts, ∃ m ∈ ms, parseMarker m = .ok st := by
  intro ms
  induction ms with
  | nil =>
    intro sel0 sts sel h st hst
    rw [buildStates] at h
    cases h
    cases hst
  | cons m rest ih =>
    intro sel0 sts sel h st hst
    rw [buildStates] at h
    cases hpm : parseMarker m with
    | error e => simp [hpm] at h
    | ok st0 =>
      simp only [hpm] at h
      cases hrest : buildStates req rest (selUpdate req st0 sel0) with
      | error e => simp [hrest] at h
      | ok pr =>
        obtain ⟨sts0, sel1⟩ := pr
        simp only [hrest, Except.ok.injEq, Prod.mk.injEq] at h
        obtain ⟨rfl, rfl⟩ := h
        rcases List.mem_cons.mp hst with rfl | hst
        · exact ⟨m, List.mem_cons_self m rest, hpm⟩
        · obtain ⟨m2, hm2, hpm2⟩ := ih hrest st hst
          exact ⟨m2, List.mem_cons_of_mem m hm2, hpm2⟩

lemma buildStates_sel_of_no_match {req : Option String} :
    ∀ {ms : List Marker} {sel0 : Option IconState} {sts : List IconState}
      {sel : Option IconState},
      (∀ m ∈ ms, selCond req m = false) →
      buildStates req ms sel0 = .ok (sts, sel) → sel = sel0 := by
  intro ms
  induction ms with
  | nil =>
    intro sel0 sts sel _ h
    rw [buildStates] at h
    cases h
    rfl
  | cons m rest ih =>
    intro sel0 sts sel hno h
    rw [buildStates] at h
    cases hpm : parseMarker m with
    | error e => simp [hpm] at h
    | ok st0 =>
      simp only [hpm] at h
      have hc : selCond req m = false := hno m (List.mem_cons_self m rest)
      rw [selCond, hpm] at hc
      simp only [Bool.or_eq_false_iff, Bool.and_eq_false_iff] at hc
      have hsel1 : selUpdate req st0 sel0 = sel0 := by
        rw [selUpdate, if_neg, if_neg]
        · simp only [Bool.and_eq_true]
          intro hand
          rcases hc.2 with hx | hx
          · rw [hand.1] at hx; cases hx
          · rw [hand.2] at hx; cases hx
        · intro hx
          rw [hx] at hc
          cases hc.1
      rw [hsel1] at h
      cases hrest : buildStates req rest sel0 with
      | error e => simp [hrest] at h
      | ok pr =>
        obtain ⟨sts0, sel1⟩ := pr
        simp only [hrest, Except.ok.injEq, Prod.mk.injEq] at h
        obtain ⟨rfl, rfl⟩ := h
        exact ih (fun m2 hm2 => hno m2 (List.mem_cons_of_mem m hm2)) hrest

/-- C1 counterexample: for the document with the single marker
`"bogus:foo"` (positive duration), construction succeeds — it does not
fail with an unsupported-state-flag error — and silently parses a state
named `"bogus"` with params `["foo"]`. -/
theorem c1_counterexample :
    mkPlayer [⟨"bogus:foo", 0, 10⟩] ⟨none, none, none⟩ none 0 100 =
      .ok ⟨[⟨"bogus", 0, 10, ["foo"], false⟩], none, none, [], 1, 0, 100, none⟩ ∧
    SUPPORTED_STATE_FLAGS.contains "bogus" = false := ⟨rfl, rfl⟩

/-- C1 (amended): a marker whose leading colon-separated token is not a
recognized flag keyword is not an error: the flag loop never enters, the
token becomes the state name (with `default = false`) and the remaining
tokens become the params.  The unsupported-state-flag throw can only fire
for a token that is in `SUPPORTED_STATE_FLAGS` yet unhandled by the
switch, which is impossible with the current flag list. -/
theorem c1_amended_unrecognized_token (m : Marker) (h : String) (t : List String)
    (hsplit : jsSplit m.cm ':' = h :: t)
    (hflag : SUPPORTED_STATE_FLAGS.contains h = false) :
    parseMarker m = .ok ⟨h, m.tm, m.dr, t, false⟩ := by
  unfold parseMarker
  rw [hsplit]
  rw [consumeFlags, hflag]
  simp

/-- Witness for C1 (amended) at the marker `"bogus:foo"`. -/
theorem c1_amended_witness :
    jsSplit "bogus:foo" ':' = ["bogus", "foo"] ∧
    SUPPORTED_STATE_FLAGS.contains "bogus" = false ∧
    parseMarker ⟨"bogus:foo", 0, 10⟩ = .ok ⟨"bogus", 0, 10, ["foo"], false⟩ :=
  ⟨rfl, rfl, c1_amended_unrecognized_token ⟨"bogus:foo", 0, 10⟩ "bogus" ["foo"] rfl rfl⟩

/-- C2 counterexample: the document whose only marker is `"default:foo"`
with duration 0 and no requested initial state yields an empty state
catalog, yet `state` reads `"foo"` — the default flag of the discarded
zero-duration marker still selected a state. -/
theorem c2_counterexample :
    mkPlayer [⟨"default:foo", 0, 0⟩] ⟨none, none, none⟩ none 0 100 =
      .ok ⟨[], some ⟨"foo", 0, 0, [], true⟩, none, [], 1, 0, 100, none⟩ ∧
    Player.state ⟨[], some ⟨"foo", 0, 0, [], true⟩, none, [], 1, 0, 100, none⟩ = "foo" :=
  ⟨rfl, rfl⟩

/-- C2 (amended): for every document whose markers all have non-positive
duration (or no markers), the constructed state catalog is empty; and
`state` reads empty provided no such marker satisfied the in-map selection
rule (its name equal to the requested initial state, or default-flagged
with no requested state) — a discarded marker satisfying that rule leaves
`state` reading its name. -/
theorem c2_amended_no_valid_markers (markers : List Marker) (props : InitProps)
    (extracted : Option (List LottieProp)) (docIp docOp : Int) (p : Player)
    (hok : mkPlayer markers props extracted docIp docOp = .ok p)
    (hdr : ∀ m ∈ markers, m.dr ≤ 0) :
    p.availableStates = [] ∧
      ((∀ m ∈ markers, selCond props.state m = false) → p.state = "") := by
  unfold mkPlayer at hok
  cases hb : buildStates props.state markers none with
  | error e => simp [hb] at hok
  | ok pr =>
    obtain ⟨allStates, sel⟩ := pr
    simp only [hb] at hok
    have hfilter : allStates.filter (fun c => c.duration > 0) = [] := by
      rw [List.filter_eq_nil_iff]
      intro st hst
      obtain ⟨m, hm, hpm⟩ := buildStates_mem hb st hst
      have hd := parseMarker_duration hpm
      have := hdr m hm
      simp only [decide_eq_true_eq, gt_iff_lt]
      omega
    simp only [hfilter, List.isEmpty_nil, if_true] at hok
    obtain rfl := Except.ok.inj hok
    refine ⟨rfl, fun hsel => ?_⟩
    have hnone : sel = none := buildStates_sel_of_no_match hsel hb
    simp [Player.state, mkPlayerLegacy, hnone]

/-- Witness for C2 (amended): a single zero-duration marker `"x"` that
matches no selection rule yields an empty catalog and empty `state`. -/
theorem c2_amended_witness :
    mkPlayer [⟨"x", 0, 0⟩] ⟨none, none, none⟩ none 0 100 =
      .ok ⟨[], none, none, [], 1, 0, 100, none⟩ ∧
    (∀ m ∈ [Marker.mk "x" 0 0], m.dr ≤ 0) ∧
    Player.availableStates ⟨[], none, none, [], 1, 0, 100, none⟩ = [] ∧
    Player.state ⟨[], none, none, [], 1, 0, 100, none⟩ = "" := by
  have h := c2_amended_no_valid_markers [⟨"x", 0, 0⟩] ⟨none, none, none⟩ none 0 100
    ⟨[], none, none, [], 1, 0, 100, none⟩ rfl (by decide)
  exact ⟨rfl, by decide, h.1, h.2 (by decide)⟩

/-- C3 counterexample: for a markerless (legacy) document exposing a
`stroke` property with baseline value 50, the out-of-vocabulary supplied
stroke `7` is not rejected: the constructor keeps it and applies the
scaled value `7` at the property's path. -/
theorem c3_counterexample :
    mkPlayer [] ⟨none, some (.num 7), none⟩ (some [⟨"stroke", "layers.0.w", 50⟩]) 0 100 =
      .ok ⟨[], none, some (.num 7), [("layers.0.w", some 7)], 1, 0, 100, none⟩ ∧
    validStroke (.num 7) = false := by
  refine ⟨?_, rfl⟩
  norm_num [mkPlayer, buildStates, mkPlayerLegacy, legacyWritesAll,
    legacyStrokeWrites, strokeNum, StrokeValue.truthy]

/-- C3 (amended): a truthy supplied stroke outside the controlled
vocabulary `{1, 2, 3, light, regular, bold}` is deleted (treated as
absent) only for marker-bearing documents; for markerless legacy documents
the value is kept and, when the extracted catalog exposes a `stroke`
property, the scaled value `stroke * (property.value / 50)` is written at
the property's path. -/
theorem c3_amended_stroke_vocabulary (markers : List Marker) (props : InitProps)
    (extracted : Option (List LottieProp)) (docIp docOp : Int) (p : Player)
    (v : StrokeValue)
    (hok : mkPlayer markers props extracted docIp docOp = .ok p)
    (hv : props.stroke = some v) (ht : v.truthy = true)
    (hinv : validStroke v = false) :
    (p.availableStates ≠ [] → p.stroke? = none) ∧
    (p.availableStates = [] → p.stroke? = some v ∧
      ∀ ps property, extracted = some ps →
        (ps.filter (fun c => c.name == "stroke")).head? = some property →
        (property.path, (strokeNum v).map (fun n => n * (property.value / 50))) ∈
          p.legacyWrites) := by
  unfold mkPlayer at hok
  cases hb : buildStates props.state markers none with
  | error e => simp [hb] at hok
  | ok pr =>
    obtain ⟨allStates, sel⟩ := pr
    simp only [hb] at hok
    by_cases hempty : (allStates.filter (fun c => c.duration > 0)).isEmpty = true
    · rw [if_pos hempty] at hok
      obtain rfl := Except.ok.inj hok
      refine ⟨fun hne => absurd (List.isEmpty_iff.mp hempty) hne, fun _ => ⟨hv, ?_⟩⟩
      intro ps property hps hprop
      subst hps
      simp only [mkPlayerLegacy, legacyWritesAll, hv, ht, if_true]
      simp [legacyStrokeWrites, hprop]
    · rw [if_neg hempty] at hok
      obtain rfl := Except.ok.inj hok
      refine ⟨fun _ => ?_, fun he => absurd he ?_⟩
      · simp only [mkPlayerModern]
        rw [hv]
        simp [modernStroke, ht, hinv]
      · simpa [mkPlayerModern, List.isEmpty_iff] using hempty

/-- Witness for C3 (amended) at the legacy document of the counterexample:
stroke `7` is truthy, invalid, and its scaled write lands in the
constructor's legacy writes. -/
theorem c3_amended_witness :
    StrokeValue.truthy (.num 7) = true ∧ validStroke (.num 7) = false ∧
    ("layers.0.w", (strokeNum (.num 7)).map (fun n => n * ((50 : ℚ) / 50))) ∈
      ([("layers.0.w", some (7 : ℚ))] : List (String × Option ℚ)) := by
  refine ⟨rfl, rfl, ?_⟩
  have h := c3_amended_stroke_vocabulary [] ⟨none, some (.num 7), none⟩
    (some [⟨"stroke", "layers.0.w", 50⟩]) 0 100
    ⟨[], none, some (.num 7), [("layers.0.w", some 7)], 1, 0, 100, none⟩ (.num 7)
    (by norm_num [mkPlayer, buildStates, mkPlayerLegacy, legacyWritesAll,
      legacyStrokeWrites, strokeNum, StrokeValue.truthy])
    rfl rfl rfl
  exact (h.2 rfl).2 [⟨"stroke", "layers.0.w", 50⟩] ⟨"stroke", "layers.0.w", 50⟩ rfl rfl

/-- C6: every entry of the constructed state catalog has positive
duration: markers with zero or negative duration are discarded by the
filter and never stored as states. -/
theorem c6_catalog_durations_positive (markers : List Marker) (props : InitProps)
    (extracted : Option (List LottieProp)) (docIp docOp : Int) (p : Player)
    (hok : mkPlayer markers props extracted docIp docOp = .ok p) :
    ∀ st ∈ p.availableStates, 0 < st.duration := by
  unfold mkPlayer at hok
  cases hb : buildStates props.state markers none with
  | error e => simp [hb] at hok
  | ok pr =>
    obtain ⟨allStates, sel⟩ := pr
    simp only [hb] at hok
    by_cases hempty : (allStates.filter (fun c => c.duration > 0)).isEmpty = true
    · rw [if_pos hempty] at hok
      obtain rfl := Except.ok.inj hok
      intro st hst
      simp only [mkPlayerLegacy, List.mem_filter, decide_eq_true_eq, gt_iff_lt] at hst
      exact hst.2
    · rw [if_neg hempty] at hok
      obtain rfl := Except.ok.inj hok
      intro st hst
      simp only [mkPlayerModern, List.mem_filter, decide_eq_true_eq, gt_iff_lt] at hst
      exact hst.2

/-- Witness for C6: on a document with a positive-duration and a
zero-duration marker, every catalog entry has positive duration. -/
theorem c6_catalog_durations_positive_witness :
    mkPlayer [⟨"in-reveal", 0, 30⟩, ⟨"junk", 30, 0⟩] ⟨none, none, none⟩ none 0 100 =
      .ok ⟨[⟨"in-reveal", 0, 30, [], false⟩], none, none, [], 1, 0, 100, none⟩ ∧
    ∀ st ∈ Player.availableStates ⟨[⟨"in-reveal", 0, 30, [], false⟩], none, none,
        [], 1, 0, 100, none⟩, 0 < st.duration :=
  ⟨rfl, c6_catalog_durations_positive [⟨"in-reveal", 0, 30⟩, ⟨"junk", 30, 0⟩]
    ⟨none, none, none⟩ none 0 100
    ⟨[⟨"in-reveal", 0, 30, [], false⟩], none, none, [], 1, 0, 100, none⟩ rfl⟩

/-- C7: the marker `"default:hover-spending:fast"` (positive duration)
parses into a catalog entry with `default = true`, name
`"hover-spending"` and params `["fast"]`: the recognized leading flag is
consumed, the next token is the state name, the rest are parameters. -/
theorem c7_default_flag_marker_parse :
    mkPlayer [⟨"default:hover-spending:fast", 10, 20⟩] ⟨none, none, none⟩ none 0 100 =
      .ok ⟨[⟨"hover-spending", 10, 20, ["fast"], true⟩],
           some ⟨"hover-spending", 10, 20, ["fast"], true⟩, none, [], 1, 0, 100, none⟩ :=
  rfl

/-! ## Runtime `Player` operations (`player.ts`)

Every transport operation first checks `_lottieInstance` and throws
`Player not initialized` when absent.
-/

/-- `get playing` (`player.ts` lines 737-741): `!isPaused`. -/
def Player.playing (p : Player) : Except String Bool :=
  match p.lottie? with
  | none => .error "Player not initialized"
  | some r => .ok (!r.isPaused)

/-- `play()` (`player.ts` lines 414-419): set the direction, then play. -/
def Player.play (p : Player) : Except String Player :=
  match p.lottie? with
  | none => .error "Player not initialized"
  | some r => .ok { p with lottie? := some ((r.setDirection p.direction).play) }

/-- `pause()` (`player.ts` lines 438-442). -/
def Player.pause (p : Player) : Except String Player :=
  match p.lottie? with
  | none => .error "Player not initialized"
  | some r => .ok { p with lottie? := some r.pause }

/-- `seek(frame)` (`player.ts` lines 457-461): `goToAndStop(frame, true)`
with the frame passed through unclamped. -/
def Player.seek (p : Player) (frame : Int) : Except String Player :=
  match p.lottie? with
  | none => .error "Player not initialized"
  | some r => .ok { p with lottie? := some (r.goToAndStop frame) }

/-- `get frameCount` (`player.ts` lines 754-758): `getDuration(true) - 1`. -/
def Player.frameCount (p : Player) : Except String Int :=
  match p.lottie? with
  | none => .error "Player not initialized"
  | some r => .ok (r.getDurationInFrames - 1)

/-- `set frame` (`player.ts` lines 712-714):
`seek(Math.max(0, Math.min(this.frameCount, frame)))`; the `frameCount`
getter throws first when uninitialized. -/
def Player.setFrame (p : Player) (frame : Int) : Except String Player :=
  match p.lottie? with
  | none => .error "Player not initialized"
  | some r => p.seek (max 0 (min (r.getDurationInFrames - 1) frame))

/-- `switchSegment(segment?)` (`player.ts` lines 482-492): adopt the given
segment (or reset to the full range), then stop at its first frame. -/
def Player.switchSegment (p : Player) (segment : Option (Int × Int)) :
    Except String Player :=
  match p.lottie? with
  | none => .error "Player not initialized"
  | some r =>
    .ok { p with lottie? := some ((match segment with
      | some s => r.setSegment s.1 s.2
      | none => r.resetSegments).goToAndStop 0) }

/-- The state-resolution block of the `state` setter (`player.ts` lines
619-629): `null` selects the first default-flagged entry; a non-empty name
selects the first entry of that name, else the first default-flagged
entry; the empty string (falsy, not nil) selects nothing. -/
def resolveState (availableStates : List IconState) (state : Option String) :
    Option IconState :=
  match state with
  | none => (availableStates.filter (fun c => c.default)).head?
  | some s =>
    if s = "" then none
    else
      match (availableStates.filter (fun c => c.name == s)).head? with
      | some st => some st
      | none => (availableStates.filter (fun c => c.default)).head?

/-- `set state` (`player.ts` lines 611-639): throw when uninitialized;
no-op when the requested value strictly equals the current `state` read;
otherwise capture `playing`, resolve the new state, switch the segment
(stopping at its start), and — only if playback was active — pause then
play. -/
def Player.setState (p : Player) (state : Option String) : Except String Player :=
  match p.lottie? with
  | none => .error "Player not initialized"
  | some r =>
    if state == some p.state then .ok p
    else
      match Player.switchSegment { p with state? := resolveState p.availableStates state }
          ((resolveState p.availableStates state).map
            (fun c => (c.time, c.time + c.duration + 1))) with
      | .error e => .error e
      | .ok p2 =>
        if !r.isPaused then
          match p2.pause with
          | .error e => .error e
          | .ok p3 => p3.play
        else .ok p2

/-- The overall playable range configured at load (`player.ts` lines
265-272): with states, from the first state's start to one frame past the
last state's end; otherwise the document's own range. -/
def loadRange (p : Player) : Int × Int :=
  match p.availableStates.head?, p.availableStates.getLast? with
  | some first, some last => (first.time, last.time + last.duration + 1)
  | _, _ => (p.docIp, p.docOp)

/-- The initial segment (`player.ts` lines 260-263): the selected state's
segment when a state is set, else the full load range. -/
def initialSegment (p : Player) : Int × Int :=
  match p.state? with
  | some st => (st.time, st.time + st.duration + 1)
  | none => loadRange p

/-- Modelled from the spec: `lottie.loadAnimation` belongs to the external
renderer (spec 6); loading with `autoplay: false` yields a paused instance
positioned at the start of the configured initial segment, with
`resetSegments` restoring the overall load range. -/
def loadRenderer (p : Player) : Renderer :=
  { isPaused := true, currentFrame := 0,
    firstFrame := (initialSegment p).1,
    totalFrames := (initialSegment p).2 - (initialSegment p).1,
    fullFirst := (loadRange p).1,
    fullTotal := (loadRange p).2 - (loadRange p).1,
    playDirection := 1, trace := ["loadAnimation"] }

/-- `init()` (`player.ts` lines 252-314): throw `Already connected
player!` when a live instance already exists; otherwise load the
animation. -/
def Player.init (p : Player) : Except String Player :=
  match p.lottie? with
  | some _ => .error "Already connected player!"
  | none => .ok { p with lottie? := some (loadRenderer p) }

lemma setState_resolves (p : Player) (r : Renderer) (state : Option String)
    (hl : p.lottie? = some r) (hne : (state == some p.state) = false) :
    ∃ r2 : Renderer,
      p.setState state =
        .ok { p with state? := resolveState p.availableStates state,
                     lottie? := some r2 } := by
  unfold Player.setState
  simp only [hl, hne, Bool.false_eq_true, if_false]
  unfold Player.switchSegment
  simp only
  cases hb : r.isPaused with
  | true =>
    simp only [hb, Bool.not_true, Bool.false_eq_true, if_false]
    exact ⟨_, rfl⟩
  | false =>
    simp only [hb, Bool.not_false, if_true]
    unfold Player.pause Player.play
    simp only
    exact ⟨_, rfl⟩

/-- C4 counterexample: on an initialized player whose catalog holds the
default-flagged state `"foo"` (currently selected), requesting the state
name `""` — which matches no catalog entry — does not fall back to the
default-flagged entry: no state is selected and `state` reads empty. -/
theorem c4_counterexample :
    Player.setState ⟨[⟨"foo", 0, 10, [], true⟩], some ⟨"foo", 0, 10, [], true⟩,
        none, [], 1, 0, 11, some ⟨true, 0, 0, 11, 0, 11, 1, []⟩⟩ (some "") =
      .ok ⟨[⟨"foo", 0, 10, [], true⟩], none, none, [], 1, 0, 11,
        some ⟨true, 0, 0, 11, 0, 11, 1, ["goToAndStop", "resetSegments"]⟩⟩ ∧
    (List.filter (fun c => c.default) [IconState.mk "foo" 0 10 [] true]) =
      [⟨"foo", 0, 10, [], true⟩] ∧
    Player.state ⟨[⟨"foo", 0, 10, [], true⟩], none, none, [], 1, 0, 11,
        some ⟨true, 0, 0, 11, 0, 11, 1, ["goToAndStop", "resetSegments"]⟩⟩ = "" :=
  ⟨rfl, rfl, rfl⟩

/-- C4 (amended): on an initialized player, setting a non-empty state name
that matches no catalog entry (and differs from the current `state` read)
selects the first default-flagged catalog entry; when no entry is flagged
default, no state is selected and `state` subsequently reads empty.
Setting the empty string never falls back to the default: it deselects the
state (see the counterexample). -/
theorem c4_amended_state_fallback (p : Player) (r : Renderer) (s : String)
    (hl : p.lottie? = some r) (hne : s ≠ "")
    (hnomatch : p.availableStates.filter (fun c => c.name == s) = [])
    (hcur : p.state ≠ s) :
    (p.setState (some s)).map Player.state? =
      .ok ((p.availableStates.filter (fun c => c.default)).head?) ∧
    (p.availableStates.filter (fun c => c.default) = [] →
      (p.setState (some s)).map Player.state = .ok "") := by
  have hbeq : ((some s : Option String) == some p.state) = false := by
    simp only [beq_eq_false_iff_ne, ne_eq, Option.some.injEq]
    exact fun h => hcur h.symm
  obtain ⟨r2, hr2⟩ := setState_resolves p r (some s) hl hbeq
  have hres : resolveState p.availableStates (some s) =
      (p.availableStates.filter (fun c => c.default)).head? := by
    rw [resolveState, if_neg hne, hnomatch]
    rfl
  rw [hr2]
  constructor
  · simp [Except.map, hres]
  · intro hdef
    simp [Except.map, Player.state, hres, hdef]

/-- Witness for C4 (amended): catalog with the single non-default state
`"bar"`; requesting `"nope"` selects nothing and `state` reads empty. -/
theorem c4_amended_state_fallback_witness :
    Player.state ⟨[⟨"bar", 0, 10, [], false⟩], some ⟨"bar", 0, 10, [], false⟩,
        none, [], 1, 0, 11, some ⟨true, 0, 0, 11, 0, 11, 1, []⟩⟩ ≠ "nope" ∧
    (Player.setState ⟨[⟨"bar", 0, 10, [], false⟩], some ⟨"bar", 0, 10, [], false⟩,
        none, [], 1, 0, 11, some ⟨true, 0, 0, 11, 0, 11, 1, []⟩⟩ (some "nope")).map
      Player.state? = .ok none ∧
    (Player.setState ⟨[⟨"bar", 0, 10, [], false⟩], some ⟨"bar", 0, 10, [], false⟩,
        none, [], 1, 0, 11, some ⟨true, 0, 0, 11, 0, 11, 1, []⟩⟩ (some "nope")).map
      Player.state = .ok "" := by
  have h := c4_amended_state_fallback
    ⟨[⟨"bar", 0, 10, [], false⟩], some ⟨"bar", 0, 10, [], false⟩,
      none, [], 1, 0, 11, some ⟨true, 0, 0, 11, 0, 11, 1, []⟩⟩
    ⟨true, 0, 0, 11, 0, 11, 1, []⟩ "nope" rfl (by decide) rfl (by decide)
  exact ⟨by decide, h.1, h.2 rfl⟩

/-- C5: on an initialized player that is playing, switching to a different
resolvable state yields a player that is playing again (`isPaused =
false`), positioned at the new segment's start (`currentFrame = 0`
relative to `firstFrame = st.time`), with the new segment adopted; the
renderer trace shows the restart went through `pause` then `play`
(after `setSegment` / `goToAndStop`), not a seamless continuation. -/
theorem c5_state_switch_restarts_playback (p : Player) (r : Renderer) (s : String)
    (st : IconState)
    (hl : p.lottie? = some r) (hplay : r.isPaused = false)
    (hne : s ≠ "") (hcur : p.state ≠ s)
    (hfind : (p.availableStates.filter (fun c => c.name == s)).head? = some st) :
    p.setState (some s) = .ok { p with
      state? := some st,
      lottie? := some { isPaused := false,
                        currentFrame := 0,
                        firstFrame := st.time,
                        totalFrames := st.duration + 1,
                        fullFirst := r.fullFirst,
                        fullTotal := r.fullTotal,
                        playDirection := p.direction,
                        trace := "play" :: "setDirection" :: "pause" ::
                          "goToAndStop" :: "setSegment" :: r.trace } } := by
  have hbeq : ((some s : Option String) == some p.state) = false := by
    simp only [beq_eq_false_iff_ne, ne_eq, Option.some.injEq]
    exact fun h => hcur h.symm
  have hres : resolveState p.availableStates (some s) = some st := by
    rw [resolveState, if_neg hne, hfind]
  unfold Player.setState
  simp only [hl, hbeq, Bool.false_eq_true, if_false, hres]
  unfold Player.switchSegment
  simp only [hl, hplay, Bool.not_false, if_true, Option.map_some]
  unfold Player.pause Player.play
  simp only [Option.map_some', Renderer.setSegment, Renderer.goToAndStop,
    Renderer.pause, Renderer.setDirection, Renderer.play, Except.ok.injEq,
    Player.mk.injEq, Renderer.mk.injEq]
  norm_num
  omega

/-- Witness for C5: a playing two-state player switches from `"a"` to
`"b"` and ends up playing at the start of `"b"`'s segment. -/
theorem c5_state_switch_restarts_playback_witness :
    Renderer.isPaused ⟨false, 0, 0, 11, 0, 31, 1, []⟩ = false ∧
    Player.state ⟨[⟨"a", 0, 10, [], true⟩, ⟨"b", 10, 20, [], false⟩],
        some ⟨"a", 0, 10, [], true⟩, none, [], 1, 0, 31,
        some ⟨false, 0, 0, 11, 0, 31, 1, []⟩⟩ ≠ "b" ∧
    Player.setState ⟨[⟨"a", 0, 10, [], true⟩, ⟨"b", 10, 20, [], false⟩],
        some ⟨"a", 0, 10, [], true⟩, none, [], 1, 0, 31,
        some ⟨false, 0, 0, 11, 0, 31, 1, []⟩⟩ (some "b") =
      .ok ⟨[⟨"a", 0, 10, [], true⟩, ⟨"b", 10, 20, [], false⟩],
        some ⟨"b", 10, 20, [], false⟩, none, [], 1, 0, 31,
        some ⟨false, 0, 10, 21, 0, 31, 1,
          ["play", "setDirection", "pause", "goToAndStop", "setSegment"]⟩⟩ := by
  have h := c5_state_switch_restarts_playback
    ⟨[⟨"a", 0, 10, [], true⟩, ⟨"b", 10, 20, [], false⟩],
      some ⟨"a", 0, 10, [], true⟩, none, [], 1, 0, 31,
      some ⟨false, 0, 0, 11, 0, 31, 1, []⟩⟩
    ⟨false, 0, 0, 11, 0, 31, 1, []⟩ "b" ⟨"b", 10, 20, [], false⟩
    rfl rfl (by decide) (by decide) rfl
  exact ⟨rfl, by decide, h⟩

/-- C9: calling `init()` on a player that already holds a live renderer
instance fails with `Already connected player!`; the call returns only the
error, so the existing instance is never replaced and at most one live
instance exists per façade. -/
theorem c9_init_twice_errors (p : Player) (r : Renderer)
    (hl : p.lottie? = some r) :
    p.init = .error "Already connected player!" := by
  unfold Player.init
  simp only [hl]

/-- Witness for C9 at a concrete initialized player. -/
theorem c9_init_twice_errors_witness :
    Player.lottie? ⟨[], none, none, [], 1, 0, 100,
        some ⟨true, 0, 0, 100, 0, 100, 1, []⟩⟩ =
      some ⟨true, 0, 0, 100, 0, 100, 1, []⟩ ∧
    Player.init ⟨[], none, none, [], 1, 0, 100,
        some ⟨true, 0, 0, 100, 0, 100, 1, []⟩⟩ =
      .error "Already connected player!" :=
  ⟨rfl, c9_init_twice_errors
    ⟨[], none, none, [], 1, 0, 100, some ⟨true, 0, 0, 100, 0, 100, 1, []⟩⟩
    ⟨true, 0, 0, 100, 0, 100, 1, []⟩ rfl⟩

/-- C10: on an initialized player with a non-negative frame count,
assigning `v` to the `frame` property seeks to
`min(frameCount, max(0, v))` — the target is clamped into
`[0, frameCount]` — while the `seek(frame)` method passes its argument
through unclamped. -/
theorem c10_frame_setter_clamps (p : Player) (r : Renderer) (v : Int)
    (hl : p.lottie? = some r)
    (hfc : 0 ≤ r.getDurationInFrames - 1) :
    p.frameCount = .ok (r.getDurationInFrames - 1) ∧
    p.setFrame v = p.seek (min (r.getDurationInFrames - 1) (max 0 v)) ∧
    0 ≤ min (r.getDurationInFrames - 1) (max 0 v) ∧
    min (r.getDurationInFrames - 1) (max 0 v) ≤ r.getDurationInFrames - 1 ∧
    p.seek v = .ok { p with lottie? := some (r.goToAndStop v) } := by
  refine ⟨?_, ?_, by omega, by omega, ?_⟩
  · unfold Player.frameCount
    simp only [hl]
  · unfold Player.setFrame
    simp only [hl]
    congr 1
    omega
  · unfold Player.seek
    simp only [hl]

/-- Witness for C10: with frame count 120, assigning frame 500 seeks to
frame 120. -/
theorem c10_frame_setter_clamps_witness :
    Player.lottie? ⟨[], none, none, [], 1, 0, 121,
        some ⟨true, 0, 0, 121, 0, 121, 1, []⟩⟩ =
      some ⟨true, 0, 0, 121, 0, 121, 1, []⟩ ∧
    (0 : Int) ≤ Renderer.getDurationInFrames ⟨true, 0, 0, 121, 0, 121, 1, []⟩ - 1 ∧
    Player.setFrame ⟨[], none, none, [], 1, 0, 121,
        some ⟨true, 0, 0, 121, 0, 121, 1, []⟩⟩ 500 =
      Player.seek ⟨[], none, none, [], 1, 0, 121,
        some ⟨true, 0, 0, 121, 0, 121, 1, []⟩⟩
        (min (Renderer.getDurationInFrames ⟨true, 0, 0, 121, 0, 121, 1, []⟩ - 1)
          (max 0 500)) := by
  have h := c10_frame_setter_clamps
    ⟨[], none, none, [], 1, 0, 121, some ⟨true, 0, 0, 121, 0, 121, 1, []⟩⟩
    ⟨true, 0, 0, 121, 0, 121, 1, []⟩ 500 rfl (by decide)
  exact ⟨rfl, by decide, h.2.1⟩

end PlayerWeb
